import Mathlib

/-!
Shallow embedding of the Vigilant observability correlator core
(alert ingestion, risk tracker, change gate, summarizer cache,
per-cycle publication step) together with theorems settling the
frozen claims about it.

Conventions of the embedding:
* Go `time.Time` and `time.Duration` become `Int` (an absolute instant /
  a length, both in the same abstract unit).
* Go maps become association lists `List (String × α)`; `lookupA`,
  `upsertA` mirror map read and write.  Go map iteration order never
  influences any modelled result (updates are per-key independent).
* Fallible Go calls become `Except String α`; external collaborators
  (the metrics backend, the summarizer oracle, the environment, the
  content-hash function) are passed in as explicit function arguments.
* `float64` values (metric scalars, thresholds, confidences) become `ℚ`.
-/

namespace Vigilant

/-- Association-list lookup, mirroring a read `m[k]` of a Go map. -/
def lookupA {β : Type} (k : String) : List (String × β) → Option β
  | [] => none
  | (k', v) :: rest => if k = k' then some v else lookupA k rest

/-- Association-list write, mirroring `m[k] = v` on a Go map: replaces the
entry for `k` when present, otherwise appends a new one. -/
def upsertA {β : Type} (k : String) (v : β) : List (String × β) → List (String × β)
  | [] => [(k, v)]
  | (k', v') :: rest => if k = k' then (k, v) :: rest else (k', v') :: upsertA k v rest

/-- In-place value replacement for an existing key (the Go pattern of
mutating a struct reached through `m[k]`): entries for other keys are kept. -/
def updateA {β : Type} (k : String) (v : β) : List (String × β) → List (String × β)
  | [] => []
  | (k', v') :: rest => if k = k' then (k, v) :: rest else (k', v') :: updateA k v rest

/-- Keys of an association list. -/
def keysA {β : Type} (l : List (String × β)) : List String := l.map Prod.fst

/- ### pkg/prometheus: Alert (the two-argument `FetchAlerts` variant used by
`cmd/vigilant/main.go`) -/

/-- Alert, from `FetchAlerts`: a simplified Prometheus alert. -/
structure Alert where
  Name : String
  Instance : String
  Severity : String
  Service : String
  StartsAt : Int
deriving Repr, DecidableEq

/- ### pkg/risk: RiskItem and RiskTracker -/

/-- RiskItem, from `pkg/risk`: the tracked entity. -/
structure RiskItem where
  Service : String
  AlertName : String
  Severity : String
  FirstSeen : Int
  LastSeen : Int
  TTL : Int
  Score : Int
  Summary : String
  Risk : String
deriving Repr, DecidableEq

/-- The item inserted by `UpdateFromAlerts` for a previously unseen key
(Go zero values for the fields the constructor does not set). -/
def newRiskItem (a : Alert) (now ttl : Int) : RiskItem :=
  { Service := a.Instance
    AlertName := a.Name
    Severity := a.Severity
    FirstSeen := now
    LastSeen := now
    TTL := ttl
    Score := 0
    Summary := ""
    Risk := "" }

/-- One iteration of the loop body of `RiskTracker.UpdateFromAlerts`
(`tracker.go` lines 30-46): the key is `a.Instance`; an existing item has
`LastSeen` and `TTL` refreshed, otherwise a fresh item is inserted. -/
def updateFromAlert (now ttl : Int) (items : List (String × RiskItem)) (a : Alert) :
    List (String × RiskItem) :=
  match lookupA a.Instance items with
  | some item => updateA a.Instance { item with LastSeen := now, TTL := ttl } items
  | none => items ++ [(a.Instance, newRiskItem a now ttl)]

/-- `RiskTracker.UpdateFromAlerts`: folds the loop body over the alert list,
with `now` sampled once at entry and `ttl` the tracker's `TTL`. -/
def updateFromAlerts (now ttl : Int) (items : List (String × RiskItem))
    (alerts : List Alert) : List (String × RiskItem) :=
  alerts.foldl (updateFromAlert now ttl) items

/-- `RiskTracker.CleanupExpired`: deletes every item with
`now - item.LastSeen > item.TTL`. -/
def cleanupExpired (now : Int) (items : List (String × RiskItem)) :
    List (String × RiskItem) :=
  items.filter (fun kv => !(decide (now - kv.2.LastSeen > kv.2.TTL)))

/- ### Association-list lemmas -/

theorem lookupA_updateA_self {β : Type} (k : String) (v : β) (l : List (String × β))
    (it : β) (h : lookupA k l = some it) : lookupA k (updateA k v l) = some v := by
  induction l with
  | nil => simp [lookupA] at h
  | cons hd tl ih =>
    by_cases hk : k = hd.1
    · simp [updateA, lookupA, hk]
    · simp [lookupA, hk] at h
      simpa [updateA, lookupA, hk] using ih h

theorem lookupA_updateA_ne {β : Type} (k k' : String) (v : β) (l : List (String × β))
    (h : k ≠ k') : lookupA k (updateA k' v l) = lookupA k l := by
  induction l with
  | nil => simp [updateA]
  | cons hd tl ih =>
    by_cases hk : k' = hd.1
    · simp [updateA, lookupA, hk, h, hk ▸ h]
    · simp [updateA, lookupA, hk]
      by_cases hkk : k = hd.1
      · simp [hkk]
      · simp [hkk, ih]

theorem lookupA_append_some {β : Type} (k : String) (l l₂ : List (String × β)) (it : β)
    (h : lookupA k l = some it) : lookupA k (l ++ l₂) = some it := by
  induction l with
  | nil => simp [lookupA] at h
  | cons hd tl ih =>
    by_cases hk : k = hd.1
    · simpa [lookupA, hk] using (by simpa [lookupA, hk] using h)
    · simp [lookupA, hk] at h ⊢
      exact ih h

theorem lookupA_append_none {β : Type} (k : String) (l l₂ : List (String × β))
    (h : lookupA k l = none) : lookupA k (l ++ l₂) = lookupA k l₂ := by
  induction l with
  | nil => simp
  | cons hd tl ih =>
    by_cases hk : k = hd.1
    · simp [lookupA, hk] at h
    · simp [lookupA, hk] at h ⊢
      exact ih h

theorem mem_updateA {β : Type} (k : String) (v : β) (l : List (String × β))
    (kv : String × β) (h : kv ∈ updateA k v l) : kv = (k, v) ∨ kv ∈ l := by
  induction l with
  | nil => simp [updateA] at h
  | cons hd tl ih =>
    by_cases hk : k = hd.1
    · subst hk
      simp [updateA] at h
      rcases h with h | h
      · exact Or.inl h
      · exact Or.inr (List.mem_cons_of_mem _ h)
    · simp [updateA, hk] at h
      rcases h with h | h
      · exact Or.inr (by simp [h])
      · rcases ih h with h' | h'
        · exact Or.inl h'
        · exact Or.inr (List.mem_cons_of_mem _ h')

theorem keysA_updateA {β : Type} (k : String) (v : β) (l : List (String × β)) :
    keysA (updateA k v l) = keysA l := by
  induction l with
  | nil => simp [updateA]
  | cons hd tl ih =>
    by_cases hk : k = hd.1
    · simp [updateA, keysA, hk]
    · simp [updateA, keysA, hk] at ih ⊢
      exact ih

theorem lookupA_mem {β : Type} (l : List (String × β)) (k : String) (it : β)
    (h : lookupA k l = some it) : (k, it) ∈ l := by
  induction l with
  | nil => simp [lookupA] at h
  | cons hd tl ih =>
    by_cases hk : k = hd.1
    · simp [lookupA, hk] at h
      subst h
      simp [hk]
    · simp [lookupA, hk] at h
      exact List.mem_cons_of_mem _ (ih h)

theorem not_mem_keysA_of_lookupA_none {β : Type} (k : String) (l : List (String × β))
    (h : lookupA k l = none) : k ∉ keysA l := by
  induction l with
  | nil => simp [keysA]
  | cons hd tl ih =>
    by_cases hk : k = hd.1
    · simp [lookupA, hk] at h
    · simp [lookupA, hk] at h
      simp [keysA] at ih ⊢
      exact ⟨hk, ih h⟩

/- ### Tracker step lemmas -/

/-- Per-item well-formedness used while folding `UpdateFromAlerts`:
order between the two timestamps, and `LastSeen` not in the future. -/
def itemWF (now : Int) (it : RiskItem) : Prop :=
  it.FirstSeen ≤ it.LastSeen ∧ it.LastSeen ≤ now

theorem updateFromAlert_wf (now ttl : Int) (items : List (String × RiskItem)) (a : Alert)
    (hwf : ∀ kv ∈ items, itemWF now kv.2) :
    ∀ kv ∈ updateFromAlert now ttl items a, itemWF now kv.2 := by
  intro kv hkv
  unfold updateFromAlert at hkv
  cases hl : lookupA a.Instance items with
  | some item =>
    rw [hl] at hkv
    rcases mem_updateA _ _ _ _ hkv with h | h
    · subst h
      rcases lookupA_mem items a.Instance item hl with hmem
      rcases hwf _ hmem with ⟨h1, h2⟩
      exact ⟨le_trans h1 h2, le_refl now⟩
    · exact hwf _ h
  | none =>
    rw [hl] at hkv
    rcases List.mem_append.mp hkv with h | h
    · exact hwf _ h
    · simp at h
      subst h
      exact ⟨le_refl now, le_refl now⟩

theorem updateFromAlert_mono (now ttl : Int) (items : List (String × RiskItem)) (a : Alert)
    (hwf : ∀ kv ∈ items, itemWF now kv.2) :
    ∀ k it, lookupA k items = some it →
      ∃ it', lookupA k (updateFromAlert now ttl items a) = some it' ∧
        it.LastSeen ≤ it'.LastSeen := by
  intro k it hk
  unfold updateFromAlert
  cases hl : lookupA a.Instance items with
  | some item =>
    by_cases hkey : k = a.Instance
    · subst hkey
      rw [hk] at hl
      injection hl with hitem
      subst hitem
      refine ⟨{ it with LastSeen := now, TTL := ttl }, lookupA_updateA_self _ _ _ _ hk, ?_⟩
      simpa using (hwf _ (lookupA_mem items a.Instance it hk)).2
    · exact ⟨it, by rw [lookupA_updateA_ne _ _ _ _ hkey]; exact hk, le_refl _⟩
  | none =>
    exact ⟨it, lookupA_append_some _ _ _ _ hk, le_refl _⟩

theorem updateFromAlert_keys_nodup (now ttl : Int) (items : List (String × RiskItem))
    (a : Alert) (h : (keysA items).Nodup) :
    (keysA (updateFromAlert now ttl items a)).Nodup := by
  unfold updateFromAlert
  cases hl : lookupA a.Instance items with
  | some item => rw [keysA_updateA]; exact h
  | none =>
    have hk : a.Instance ∉ keysA items := not_mem_keysA_of_lookupA_none _ _ hl
    have hkeys : keysA (items ++ [(a.Instance, newRiskItem a now ttl)])
        = keysA items ++ [a.Instance] := by simp [keysA]
    rw [hkeys]
    refine List.Nodup.append h (List.nodup_singleton _) ?_
    intro x hx hx'
    simp at hx'
    subst hx'
    exact hk hx

theorem updateFromAlerts_wf_mono (now ttl : Int) (alerts : List Alert) :
    ∀ items : List (String × RiskItem), (∀ kv ∈ items, itemWF now kv.2) →
      (∀ kv ∈ updateFromAlerts now ttl items alerts, itemWF now kv.2) ∧
      (∀ k it, lookupA k items = some it →
        ∃ it', lookupA k (updateFromAlerts now ttl items alerts) = some it' ∧
          it.LastSeen ≤ it'.LastSeen) := by
  induction alerts with
  | nil => intro items hwf; exact ⟨hwf, fun k it h => ⟨it, h, le_refl _⟩⟩
  | cons a rest ih =>
    intro items hwf
    have hwf1 := updateFromAlert_wf now ttl items a hwf
    rcases ih (updateFromAlert now ttl items a) hwf1 with ⟨h1, h2⟩
    refine ⟨h1, ?_⟩
    intro k it hk
    rcases updateFromAlert_mono now ttl items a hwf k it hk with ⟨it₁, hk₁, hle₁⟩
    rcases h2 k it₁ hk₁ with ⟨it₂, hk₂, hle₂⟩
    exact ⟨it₂, hk₂, le_trans hle₁ hle₂⟩

theorem updateFromAlerts_keys_nodup (now ttl : Int) (alerts : List Alert) :
    ∀ items : List (String × RiskItem), (keysA items).Nodup →
      (keysA (updateFromAlerts now ttl items alerts)).Nodup := by
  induction alerts with
  | nil => intro items h; exact h
  | cons a rest ih =>
    intro items h
    exact ih _ (updateFromAlert_keys_nodup now ttl items a h)

/- ### Concrete sample data used by counterexamples and witnesses -/

/-- A firing alert whose resolved service is distinct from its instance label. -/
def alertA : Alert :=
  { Name := "MyAPIDown", Instance := "10.0.0.1:8080", Severity := "critical"
    Service := "MyAPI", StartsAt := 0 }

/-- A second alert for the same service `MyAPI` but a different instance. -/
def alertB : Alert :=
  { Name := "MyAPIDown", Instance := "10.0.0.2:8080", Severity := "critical"
    Service := "MyAPI", StartsAt := 0 }

/-- A one-entry tracker state, inserted at time 50. -/
def sampleItems : List (String × RiskItem) := [(alertA.Instance, newRiskItem alertA 50 120)]

/-- The item of `sampleItems` after being refreshed at time 100. -/
def refreshedA : RiskItem := { newRiskItem alertA 50 120 with LastSeen := 100, TTL := 120 }

/-- Claim C1 as stated is false on the code: `UpdateFromAlerts` keys the
tracker by `a.Instance`, not by the alert's service.  Two simultaneous
alerts for the same service (`MyAPI`) but different instances produce two
tracked entries, and after inserting one alert no entry is found under the
alert's service name. -/
theorem c1_tracker_keyed_by_service_counterexample :
    alertA.Service = alertB.Service ∧
    (updateFromAlerts 100 120 [] [alertA, alertB]).length = 2 ∧
    lookupA alertA.Service (updateFromAlerts 100 120 [] [alertA]) = none := by
  decide

/-- Claim C1 (amended): the Risk Tracker keeps at most one tracked entry per
alert instance.  For each alert, if an item is already tracked under the
alert's `Instance`, `UpdateFromAlerts` refreshes that item's `LastSeen` (and
resets its TTL); otherwise a new item keyed by the instance is inserted with
`FirstSeen = LastSeen = now` and `Service` set to the instance.  Two
simultaneous alerts for the same instance never produce two entries: update
never duplicates a key. -/
theorem c1_tracker_keying_amended (now ttl : Int) (items : List (String × RiskItem))
    (a : Alert) (alerts : List Alert) :
    (lookupA a.Instance items = none →
      updateFromAlerts now ttl items [a] = items ++ [(a.Instance, newRiskItem a now ttl)]) ∧
    (∀ it, lookupA a.Instance items = some it →
      updateFromAlerts now ttl items [a]
        = updateA a.Instance { it with LastSeen := now, TTL := ttl } items) ∧
    ((keysA items).Nodup → (keysA (updateFromAlerts now ttl items alerts)).Nodup) := by
  refine ⟨?_, ?_, ?_⟩
  · intro h
    simp [updateFromAlerts, updateFromAlert, h]
  · intro it h
    simp [updateFromAlerts, updateFromAlert, h]
  · intro h
    exact updateFromAlerts_keys_nodup now ttl alerts items h

/-- Witness for the amended C1 theorem at concrete inputs: inserting `alertA`
into the empty tracker appends one instance-keyed item, and processing the
two same-service alerts keeps the key list duplicate-free. -/
theorem c1_tracker_keying_amended_witness :
    updateFromAlerts 100 120 [] [alertA] = [(alertA.Instance, newRiskItem alertA 100 120)] ∧
    (keysA (updateFromAlerts 100 120 [] [alertA, alertB])).Nodup := by
  constructor
  · have h := (c1_tracker_keying_amended 100 120 [] alertA [alertA]).1 (by decide)
    simpa using h
  · exact (c1_tracker_keying_amended 100 120 [] alertA [alertA, alertB]).2.2 (by decide)

/-- Claim C10: every tracked item satisfies `FirstSeen ≤ LastSeen`, an item's
`LastSeen` never decreases across `UpdateFromAlerts` (insertion sets both
fields to `now`; a refresh only advances `LastSeen` to `now`), and
`CleanupExpired` only removes items, preserving the invariant.  The time
hypotheses say that the invariant held before the call and that `now` is not
in the past of any tracked `LastSeen` (monotone wall clock). -/
theorem c10_tracker_time_invariant (now ttl : Int) (items : List (String × RiskItem))
    (alerts : List Alert)
    (hfl : ∀ kv ∈ items, kv.2.FirstSeen ≤ kv.2.LastSeen)
    (hnow : ∀ kv ∈ items, kv.2.LastSeen ≤ now) :
    (∀ kv ∈ updateFromAlerts now ttl items alerts, kv.2.FirstSeen ≤ kv.2.LastSeen) ∧
    (∀ k it it', lookupA k items = some it →
      lookupA k (updateFromAlerts now ttl items alerts) = some it' →
        it.LastSeen ≤ it'.LastSeen) ∧
    (∀ kv ∈ cleanupExpired now items, kv ∈ items ∧ kv.2.FirstSeen ≤ kv.2.LastSeen) := by
  have hwf : ∀ kv ∈ items, itemWF now kv.2 := fun kv h => ⟨hfl kv h, hnow kv h⟩
  rcases updateFromAlerts_wf_mono now ttl alerts items hwf with ⟨h1, h2⟩
  refine ⟨fun kv h => (h1 kv h).1, ?_, ?_⟩
  · intro k it it' hk hk'
    rcases h2 k it hk with ⟨it'', hk'', hle⟩
    rw [hk'] at hk''
    injection hk'' with he
    subst he
    exact hle
  · intro kv h
    have hm : kv ∈ items := List.mem_of_mem_filter h
    exact ⟨hm, hfl kv hm⟩

/-- Witness for C10 at concrete inputs: the item tracked at time 50 is found
again after an update at time 100 with a `LastSeen` that did not decrease. -/
theorem c10_tracker_time_invariant_witness :
    (newRiskItem alertA 50 120).LastSeen ≤ refreshedA.LastSeen :=
  (c10_tracker_time_invariant 100 120 sampleItems [alertA, alertB]
      (by decide) (by decide)).2.1
    alertA.Instance (newRiskItem alertA 50 120) refreshedA (by decide) (by decide)

/- ### pkg/prometheus: metric checks -/

/-- MetricCheck: a metric-based rule to check against Prometheus. -/
structure MetricCheck where
  Name : String
  QueryTpl : String
  Operator : String
  Threshold : ℚ
  Weight : Int
deriving Repr, DecidableEq

/-- ServiceMetricConfig: ties a service to its metric checks. -/
structure ServiceMetricConfig where
  Service : String
  Checks : List MetricCheck
deriving Repr, DecidableEq

/-- MetricResult: one triggered check result. -/
structure MetricResult where
  Service : String
  Check : MetricCheck
  Value : ℚ
deriving Repr, DecidableEq

/- ### pkg/logs: symptom matches -/

/-- SymptomMatch: a detected issue from logs. -/
structure SymptomMatch where
  Service : String
  Pattern : String
  Count : Int
  LastSeen : Int
deriving Repr, DecidableEq

/- ### pkg/summarizer: correlation bundles and verdicts -/

/-- AlertCorrelation: the per-service bundle handed to the oracle. -/
structure AlertCorrelation where
  Alert : RiskItem
  Symptoms : List SymptomMatch
  Metrics : List MetricResult
deriving Repr, DecidableEq

/-- SummaryInput: wrapper around a correlation group for one oracle call. -/
structure SummaryInput where
  Correlations : List AlertCorrelation
deriving Repr, DecidableEq

/-- RootCauseSummary: the oracle's structured verdict. -/
structure RootCauseSummary where
  Risk : String
  Confidence : ℚ
  RootCause : String
  ImmediateActions : List String
  Investigation : List String
  Prevention : String
  Summary : String
deriving Repr, DecidableEq

/- ### cmd/vigilant/main.go: change detection -/

/-- StateSnapshot: the current state for change detection.  The three counts
are Go `int`s holding list lengths, embedded as `Nat`. -/
structure StateSnapshot where
  AlertCount : Nat
  SymptomCount : Nat
  MetricCount : Nat
  AlertsHash : String
  SymptomsHash : String
  MetricsHash : String
  LastLLMUpdate : Int
deriving Repr, DecidableEq

/-- `StateSnapshot.HasChanged`: true when any of the three counts or the
three content hashes differ from the other snapshot. -/
def HasChanged (s other : StateSnapshot) : Bool :=
  s.AlertCount != other.AlertCount ||
    s.SymptomCount != other.SymptomCount ||
    s.MetricCount != other.MetricCount ||
    s.AlertsHash != other.AlertsHash ||
    s.SymptomsHash != other.SymptomsHash ||
    s.MetricsHash != other.MetricsHash

/-- `StateSnapshot.ShouldForceUpdate`: `time.Since(s.LastLLMUpdate) > maxAge`
with `now` the sampled wall clock. -/
def ShouldForceUpdate (s : StateSnapshot) (now maxAge : Int) : Bool :=
  decide (now - s.LastLLMUpdate > maxAge)

/-- The summarizer gate of the main loop (`main.go` lines 384 and 400-404):
first `shouldCallLLM := len(correlations) > 0 && currentState.HasChanged(lastState)`,
then the forced-update override
`if len(correlations) > 0 && !shouldCallLLM && currentState.ShouldForceUpdate(maxAge)`. -/
def shouldCallLLM (correlations : List AlertCorrelation)
    (currentState lastState : StateSnapshot) (now maxAge : Int) : Bool :=
  let s := decide (correlations.length > 0) && HasChanged currentState lastState
  if decide (correlations.length > 0) && !s && ShouldForceUpdate currentState now maxAge
  then true else s

/-- Claim C3: the summarizer call is scheduled iff the correlation list is
non-empty AND (the snapshot's counts or content hashes differ from the
previous committed state, OR `now - lastSummaryTime` exceeds `maxAge`).
The hypothesis records that `main.go` builds `currentState` with
`LastLLMUpdate := lastState.LastLLMUpdate`, so the forced-update age is
measured from the previous committed summary time. -/
theorem c3_summarizer_gating (correlations : List AlertCorrelation)
    (currentState lastState : StateSnapshot) (now maxAge : Int)
    (h : currentState.LastLLMUpdate = lastState.LastLLMUpdate) :
    shouldCallLLM correlations currentState lastState now maxAge = true ↔
      correlations ≠ [] ∧
        (HasChanged currentState lastState = true ∨
          now - lastState.LastLLMUpdate > maxAge) := by
  unfold shouldCallLLM ShouldForceUpdate
  rw [h]
  by_cases hlen : correlations.length > 0
  · have hne : correlations ≠ [] := by
      intro hnil
      simp [hnil] at hlen
    cases hc : HasChanged currentState lastState
    · by_cases hf : now - lastState.LastLLMUpdate > maxAge
      · simp [hlen, hc, hf, hne]
      · simp [hlen, hc, hf, hne]
    · simp [hlen, hc, hne]
  · have hnil : correlations = [] := by
      cases correlations with
      | nil => rfl
      | cons a rest => simp at hlen
    simp [hlen, hnil]

/-- A sample correlation bundle for a tracked item. -/
def corrSample : AlertCorrelation :=
  { Alert := newRiskItem alertA 50 120, Symptoms := [], Metrics := [] }

/-- A sample previous committed snapshot. -/
def snapPrev : StateSnapshot :=
  { AlertCount := 1, SymptomCount := 0, MetricCount := 0
    AlertsHash := "a1", SymptomsHash := "s1", MetricsHash := "m1", LastLLMUpdate := 0 }

/-- A sample current snapshot with a changed alerts hash and the previous
snapshot's committed summary time. -/
def snapCur : StateSnapshot := { snapPrev with AlertsHash := "a2" }

/-- Witness for C3 at concrete inputs: one correlation with a changed hash,
the current snapshot carrying the committed summary time. -/
theorem c3_summarizer_gating_witness :
    snapCur.LastLLMUpdate = snapPrev.LastLLMUpdate ∧
      (shouldCallLLM [corrSample] snapCur snapPrev 5 30 = true ↔
        [corrSample] ≠ ([] : List AlertCorrelation) ∧
          (HasChanged snapCur snapPrev = true ∨ (5 : Int) - snapPrev.LastLLMUpdate > 30)) :=
  ⟨rfl, c3_summarizer_gating [corrSample] snapCur snapPrev 5 30 rfl⟩

/- ### cmd/vigilant/main.go: symptom filtering and rewriting -/

/-- The Correlator's per-profile symptom filter (`main.go` lines 300-316):
keep a symptom when its service equals the service being processed or is
`"unknown"`, rewriting `"unknown"` to the current service. -/
def filterSymptomsForService (service : String) : List SymptomMatch → List SymptomMatch
  | [] => []
  | sym :: rest =>
    if sym.Service = service ∨ sym.Service = "unknown" then
      (if sym.Service = "unknown" then { sym with Service := service } else sym)
        :: filterSymptomsForService service rest
    else
      filterSymptomsForService service rest

/-- Claim C9: every symptom the Correlator keeps for a profile carries the
service being processed; the kept list is exactly the input filtered to
symptoms matching the current service or tagged `"unknown"`, with the
`"unknown"` ones rewritten to the current service and all others excluded. -/
theorem c9_symptom_attribution (service : String) (symptoms : List SymptomMatch) :
    (∀ s ∈ filterSymptomsForService service symptoms, s.Service = service) ∧
    filterSymptomsForService service symptoms
      = (symptoms.filter
          (fun s => s.Service == service || s.Service == "unknown")).map
          (fun s => if s.Service == "unknown" then { s with Service := service } else s) := by
  induction symptoms with
  | nil => exact ⟨by simp [filterSymptomsForService], by simp [filterSymptomsForService]⟩
  | cons sym rest ih =>
    rcases ih with ⟨ih1, ih2⟩
    by_cases hu : sym.Service = "unknown"
    · constructor
      · intro s hs
        rw [filterSymptomsForService, if_pos (Or.inr hu), if_pos hu] at hs
        rcases List.mem_cons.mp hs with h | h
        · rw [h]
        · exact ih1 s h
      · rw [filterSymptomsForService, if_pos (Or.inr hu), if_pos hu]
        simp [List.filter_cons, hu, ih2]
    · by_cases hm : sym.Service = service
      · constructor
        · intro s hs
          rw [filterSymptomsForService, if_pos (Or.inl hm), if_neg hu] at hs
          rcases List.mem_cons.mp hs with h | h
          · rw [h]; exact hm
          · exact ih1 s h
        · rw [filterSymptomsForService, if_pos (Or.inl hm), if_neg hu]
          have hsu : ¬(service = "unknown") := hm ▸ hu
          simp [List.filter_cons, hu, hm, hsu, ih2]
      · constructor
        · intro s hs
          rw [filterSymptomsForService, if_neg (by tauto)] at hs
          exact ih1 s hs
        · rw [filterSymptomsForService, if_neg (by tauto)]
          simp [List.filter_cons, hu, hm, ih2]

/- ### pkg/api: dashboard records, and the per-cycle verdict application of
`cmd/vigilant/main.go` (lines 406-491) -/

/-- APISymptom: a symptom as shown on the dashboard. -/
structure APISymptom where
  Pattern : String
  Count : Int
deriving Repr, DecidableEq

/-- APIMetric: a triggered metric as shown on the dashboard. -/
structure APIMetric where
  Name : String
  Value : ℚ
  Operator : String
  Threshold : ℚ
deriving Repr, DecidableEq

/-- APIRiskItem: one published risk record. -/
structure APIRiskItem where
  Service : String
  Alert : String
  Severity : String
  Score : Int
  Symptoms : List APISymptom
  Metrics : List APIMetric
  Summary : String
  Risk : String
  Confidence : ℚ
  RootCause : String
  ImmediateActions : List String
  Investigation : List String
  Prevention : String
  Timestamp : String
deriving Repr, DecidableEq

/-- Go `int(x)` conversion of a `float64`, on our `ℚ` embedding: truncation
toward zero. -/
def goIntOfRat (q : ℚ) : Int := q.num.tdiv q.den

/-- The score switch of `main.go` (identical at lines 437-448 and 474-485):
`strings.ToLower(s.Risk)` selects the band, `int(confidence·k)` the offset,
any other risk value leaves the score 0. -/
def calculateScore (s : RootCauseSummary) : Int :=
  if s.Risk.toLower = "critical" then 90 + goIntOfRat (s.Confidence * 10)
  else if s.Risk.toLower = "high" then 70 + goIntOfRat (s.Confidence * 20)
  else if s.Risk.toLower = "medium" then 40 + goIntOfRat (s.Confidence * 30)
  else if s.Risk.toLower = "low" then 10 + goIntOfRat (s.Confidence * 30)
  else 0

/-- Overlaying one verdict onto one uiData entry (the shared body of the two
`for i := range uiData` loops in `main.go`). -/
def applyLLMToItem (s : RootCauseSummary) (item : APIRiskItem) : APIRiskItem :=
  { item with
      Summary := s.Summary
      Risk := s.Risk
      Confidence := s.Confidence
      RootCause := s.RootCause
      ImmediateActions := s.ImmediateActions
      Investigation := s.Investigation
      Prevention := s.Prevention
      Score := calculateScore s }

/-- Overlay loop: each `uiData[i]` whose service has an entry in `data` is
overlaid; entries without one are left as initialized. -/
def applyLLMData (data : List (String × RootCauseSummary))
    (uiData : List APIRiskItem) : List APIRiskItem :=
  uiData.map (fun item =>
    match lookupA item.Service data with
    | some s => applyLLMToItem s item
    | none => item)

/-- `for svc, summary := range summaryMap { lastSuccessfulLLMData[svc] = summary }`. -/
def storeSuccessful (summaryMap lastData : List (String × RootCauseSummary)) :
    List (String × RootCauseSummary) :=
  summaryMap.foldl (fun acc kv => upsertA kv.1 kv.2 acc) lastData

/-- The verdict-application step of one orchestrator cycle (`main.go` lines
406-491), as a function of the gate decision and the `GetOrSummarize`
result: on a scheduled call that succeeds, overlay the fresh verdicts and
remember them in `lastSuccessfulLLMData`; on a scheduled call that fails,
publish `uiData` as initialized; when no call is scheduled, overlay the last
successful verdicts.  Returns the published list and the new
`lastSuccessfulLLMData`. -/
def cycleLLMStep (shouldCall : Bool)
    (llmResult : Except String (List (String × RootCauseSummary)))
    (uiData : List APIRiskItem)
    (lastSuccessful : List (String × RootCauseSummary)) :
    List APIRiskItem × List (String × RootCauseSummary) :=
  if shouldCall then
    match llmResult with
    | Except.error _ => (uiData, lastSuccessful)
    | Except.ok summaryMap =>
        (applyLLMData summaryMap uiData, storeSuccessful summaryMap lastSuccessful)
  else
    (applyLLMData lastSuccessful uiData, lastSuccessful)

/-- A uiData entry as built by the Correlator before any verdict is attached
(`main.go` lines 355-369): empty verdict fields and risk `"Unknown"`. -/
def blankUIItem : APIRiskItem :=
  { Service := "MyAPI", Alert := "MyAPIDown", Severity := "critical", Score := 0
    Symptoms := [], Metrics := [], Summary := "", Risk := "Unknown", Confidence := 0
    RootCause := "", ImmediateActions := [], Investigation := [], Prevention := ""
    Timestamp := "t0" }

/-- A previously successful verdict for service `MyAPI`. -/
def vLast : RootCauseSummary :=
  { Risk := "Unknown", Confidence := 0, RootCause := "rc", ImmediateActions := []
    Investigation := [], Prevention := "p", Summary := "last good summary" }

/-- Claim C2 as stated is false on the code: when the summarizer is scheduled
and the oracle call returns an error, the published `uiData` is NOT overlaid
with the most recent successful verdicts — the error branch of `main.go`
(line 412-413) only logs, and the overlay with `lastSuccessfulLLMData` runs
only in the not-scheduled branch.  At this concrete input the published entry
keeps its empty `Summary` instead of the remembered one. -/
theorem c2_oracle_error_overlay_counterexample :
    (cycleLLMStep true (Except.error ("LLM call failed: boom")) [blankUIItem]
        [(("MyAPI"), vLast)]).1
      ≠ applyLLMData [(("MyAPI"), vLast)] [blankUIItem] := by
  intro h
  have hmap := congrArg (List.map APIRiskItem.Summary) h
  have h1 : ((cycleLLMStep true (Except.error ("LLM call failed: boom")) [blankUIItem]
      [(("MyAPI"), vLast)]).1).map APIRiskItem.Summary = [("")] := rfl
  have h2 : (applyLLMData [(("MyAPI"), vLast)] [blankUIItem]).map APIRiskItem.Summary
      = [("last good summary")] := rfl
  rw [h1, h2] at hmap
  exact absurd hmap (by decide)

/-- Claim C2 (amended): when the summarizer is scheduled and the oracle call
errors, the cycle publishes `uiData` exactly as initialized and leaves the
remembered verdicts unchanged; the overlay with the most recent successful
verdicts happens only in cycles where the summarizer is not scheduled; and a
scheduled call that succeeds overlays the fresh verdict map and remembers it. -/
theorem c2_oracle_error_behavior_amended (e : String)
    (r : Except String (List (String × RootCauseSummary)))
    (m : List (String × RootCauseSummary))
    (uiData : List APIRiskItem) (lastSuccessful : List (String × RootCauseSummary)) :
    cycleLLMStep true (Except.error e) uiData lastSuccessful = (uiData, lastSuccessful) ∧
    cycleLLMStep false r uiData lastSuccessful
      = (applyLLMData lastSuccessful uiData, lastSuccessful) ∧
    cycleLLMStep true (Except.ok m) uiData lastSuccessful
      = (applyLLMData m uiData, storeSuccessful m lastSuccessful) :=
  ⟨rfl, rfl, rfl⟩

/- ### pkg/llmcache and pkg/summarizer -/

/-- CachedSummary: one cache entry. -/
structure CachedSummary where
  Summary : List (String × RootCauseSummary)
  InputHash : String
  Timestamp : Int
  TTL : Int
deriving Repr, DecidableEq

/-- LLMCache: the fingerprint-keyed verdict cache. -/
structure LLMCache where
  cache : List (String × CachedSummary)
  defaultTTL : Int
deriving Repr, DecidableEq

/-- `NewLLMCache`. -/
def NewLLMCache (defaultTTL : Int) : LLMCache :=
  { cache := [], defaultTTL := defaultTTL }

/-- The fallback verdict `SummarizeMany` substitutes for a group whose oracle
call failed (`summarizer.go` lines 283-287; unnamed fields take Go zero
values). -/
def unknownFallbackSummary : RootCauseSummary :=
  { Risk := "Unknown", Confidence := 0, RootCause := "", ImmediateActions := []
    Investigation := [], Prevention := "", Summary := "LLM error or insufficient data" }

/-- Appending a correlation to its service's group
(`grouped[c.Alert.Service] = append(grouped[c.Alert.Service], c)`). -/
def appendToGroup (k : String) (c : AlertCorrelation) :
    List (String × List AlertCorrelation) → List (String × List AlertCorrelation)
  | [] => [(k, [c])]
  | (k', g) :: rest =>
      if k = k' then (k', g ++ [c]) :: rest else (k', g) :: appendToGroup k c rest

/-- Grouping all correlations by service (`summarizer.go` lines 273-276). -/
def groupByService (correlations : List AlertCorrelation) :
    List (String × List AlertCorrelation) :=
  correlations.foldl (fun acc c => appendToGroup c.Alert.Service c acc) []

/-- `SummarizeMany`, parametrized by the per-group oracle call `Summarize`:
each group is summarized individually; a failing group receives the fallback
verdict; the function itself always returns a nil error. -/
def SummarizeMany (summarize : SummaryInput → Except String RootCauseSummary)
    (correlations : List AlertCorrelation) :
    Except String (List (String × RootCauseSummary)) :=
  Except.ok ((groupByService correlations).map (fun kv =>
    (kv.1,
      match summarize { Correlations := kv.2 } with
      | Except.ok s => s
      | Except.error _ => unknownFallbackSummary)))

/-- The cache-miss / stale path of `GetOrSummarize` (`cache.go` lines 59-81):
call the summarizer; on error wrap and return it, storing nothing; on
success store the result under the input hash with the default TTL. -/
def getOrSummarizeCall (hashData : List AlertCorrelation → String)
    (summarizeMany : List AlertCorrelation → Except String (List (String × RootCauseSummary)))
    (c : LLMCache) (now : Int) (correlations : List AlertCorrelation) :
    Except String (List (String × RootCauseSummary)) × LLMCache × Bool :=
  match summarizeMany correlations with
  | Except.error err => (Except.error ("LLM call failed: " ++ err), c, true)
  | Except.ok summary =>
      let entry : CachedSummary :=
        { Summary := summary, InputHash := hashData correlations
          Timestamp := now, TTL := c.defaultTTL }
      (Except.ok summary,
        { c with cache := upsertA (hashData correlations) entry c.cache },
        true)

/-- `LLMCache.GetOrSummarize`, parametrized by the content-hash function and
the summarizer; returns the result, the new cache state, and whether the
summarizer was invoked.  Empty input short-circuits; a fresh entry
(`now - Timestamp < TTL`) is returned without calling the summarizer. -/
def GetOrSummarize (hashData : List AlertCorrelation → String)
    (summarizeMany : List AlertCorrelation → Except String (List (String × RootCauseSummary)))
    (c : LLMCache) (now : Int) (correlations : List AlertCorrelation) :
    Except String (List (String × RootCauseSummary)) × LLMCache × Bool :=
  if correlations = [] then (Except.ok [], c, false)
  else
    match lookupA (hashData correlations) c.cache with
    | some cached =>
        if now - cached.Timestamp < cached.TTL then (Except.ok cached.Summary, c, false)
        else getOrSummarizeCall hashData summarizeMany c now correlations
    | none => getOrSummarizeCall hashData summarizeMany c now correlations

theorem lookupA_upsertA_self {β : Type} (k : String) (v : β) (l : List (String × β)) :
    lookupA k (upsertA k v l) = some v := by
  induction l with
  | nil => simp [upsertA, lookupA]
  | cons hd tl ih =>
    by_cases hk : k = hd.1
    · simp [upsertA, lookupA, hk]
    · simp [upsertA, lookupA, hk, ih]

/-- The cache state after the store of `getOrSummarizeCall`: the summary `m`
recorded under hash `h` at time `now` with the cache's default TTL. -/
def storedCache (c : LLMCache) (h : String) (m : List (String × RootCauseSummary))
    (now : Int) : LLMCache :=
  { c with cache := upsertA h ⟨m, h, now, c.defaultTTL⟩ c.cache }

/-- Claim C7: two `GetOrSummarize` calls whose correlation lists hash to the
same fingerprint, made less than the cache TTL apart, with the first call a
cache miss that succeeds, invoke the summarizer exactly once: the first call
invokes it and stores the verdict map; the second returns the stored map
without invoking it and leaves the cache unchanged. -/
theorem c7_cache_single_invocation
    (hashData : List AlertCorrelation → String)
    (summarizeMany : List AlertCorrelation → Except String (List (String × RootCauseSummary)))
    (c : LLMCache) (t1 t2 : Int)
    (corrs1 corrs2 : List AlertCorrelation) (m : List (String × RootCauseSummary))
    (h1 : corrs1 ≠ []) (h2 : corrs2 ≠ [])
    (hh : hashData corrs2 = hashData corrs1)
    (hmiss : lookupA (hashData corrs1) c.cache = none)
    (hok : summarizeMany corrs1 = Except.ok m)
    (hfresh : t2 - t1 < c.defaultTTL) :
    (GetOrSummarize hashData summarizeMany c t1 corrs1).1 = Except.ok m ∧
    (GetOrSummarize hashData summarizeMany c t1 corrs1).2.2 = true ∧
    (GetOrSummarize hashData summarizeMany
        (GetOrSummarize hashData summarizeMany c t1 corrs1).2.1 t2 corrs2).1
      = Except.ok m ∧
    (GetOrSummarize hashData summarizeMany
        (GetOrSummarize hashData summarizeMany c t1 corrs1).2.1 t2 corrs2).2.2
      = false ∧
    (GetOrSummarize hashData summarizeMany
        (GetOrSummarize hashData summarizeMany c t1 corrs1).2.1 t2 corrs2).2.1
      = (GetOrSummarize hashData summarizeMany c t1 corrs1).2.1 := by
  have e1 : GetOrSummarize hashData summarizeMany c t1 corrs1
      = (Except.ok m, storedCache c (hashData corrs1) m t1, true) := by
    unfold GetOrSummarize getOrSummarizeCall
    simp [h1, hmiss, hok, storedCache]
  have e2 : GetOrSummarize hashData summarizeMany
        (storedCache c (hashData corrs1) m t1) t2 corrs2
      = (Except.ok m, storedCache c (hashData corrs1) m t1, false) := by
    unfold GetOrSummarize
    simp [h2, hh, lookupA_upsertA_self, hfresh, storedCache]
  refine ⟨?_, ?_, ?_, ?_, ?_⟩ <;> simp [e1, e2]

/-- A constant stand-in for the content-hash function. -/
def constHash : List AlertCorrelation → String := fun _ => "h1"

/-- A sample verdict map as returned by a successful summarizer run. -/
def sampleVerdictMap : List (String × RootCauseSummary) := [(("10.0.0.1:8080"), vLast)]

/-- A summarizer stand-in that always succeeds with `sampleVerdictMap`. -/
def constSummarizer :
    List AlertCorrelation → Except String (List (String × RootCauseSummary)) :=
  fun _ => Except.ok sampleVerdictMap

/-- Witness for C7 at concrete inputs: an empty cache (TTL 900), one
correlation, calls at times 0 and 60. -/
theorem c7_cache_single_invocation_witness :
    (GetOrSummarize constHash constSummarizer (NewLLMCache 900) 0 [corrSample]).1
      = Except.ok sampleVerdictMap ∧
    (GetOrSummarize constHash constSummarizer (NewLLMCache 900) 0 [corrSample]).2.2
      = true ∧
    (GetOrSummarize constHash constSummarizer
        (GetOrSummarize constHash constSummarizer (NewLLMCache 900) 0 [corrSample]).2.1
        60 [corrSample]).1
      = Except.ok sampleVerdictMap ∧
    (GetOrSummarize constHash constSummarizer
        (GetOrSummarize constHash constSummarizer (NewLLMCache 900) 0 [corrSample]).2.1
        60 [corrSample]).2.2
      = false ∧
    (GetOrSummarize constHash constSummarizer
        (GetOrSummarize constHash constSummarizer (NewLLMCache 900) 0 [corrSample]).2.1
        60 [corrSample]).2.1
      = (GetOrSummarize constHash constSummarizer (NewLLMCache 900) 0 [corrSample]).2.1 :=
  c7_cache_single_invocation constHash constSummarizer (NewLLMCache 900) 0 60
    [corrSample] [corrSample] sampleVerdictMap
    (by decide) (by decide) rfl rfl rfl (by decide)

/-- An oracle stand-in whose chat-completion call always fails. -/
def failingOracle : SummaryInput → Except String RootCauseSummary :=
  fun _ => Except.error ("boom")

/-- Claim C8 as stated is false on the code: when the per-group oracle
invocation fails, `SummarizeMany` swallows the error and substitutes the
fallback verdict, so `GetOrSummarize` returns a successful verdict map — not
a non-nil error — and stores it in the cache (the cache grows by one entry). -/
theorem c8_oracle_failure_cached_counterexample :
    (GetOrSummarize constHash (SummarizeMany failingOracle)
        (NewLLMCache 900) 0 [corrSample]).1
      = Except.ok [(("10.0.0.1:8080"), unknownFallbackSummary)] ∧
    ((GetOrSummarize constHash (SummarizeMany failingOracle)
        (NewLLMCache 900) 0 [corrSample]).2.1).cache.length = 1 :=
  ⟨rfl, rfl⟩

/-- Claim C8 (amended): `SummarizeMany` always returns success, mapping every
group whose oracle invocation failed to the fallback verdict
(risk `Unknown`, summary `LLM error or insufficient data`), which
`GetOrSummarize` then stores and returns as a successful verdict map.
`GetOrSummarize` returns a non-nil error and leaves the cache unchanged only
when the summarize call it makes fails as a whole — a branch `SummarizeMany`
never takes. -/
theorem c8_oracle_failure_amended
    (oracle : SummaryInput → Except String RootCauseSummary)
    (corrs : List AlertCorrelation)
    (hashData : List AlertCorrelation → String)
    (f : List AlertCorrelation → Except String (List (String × RootCauseSummary)))
    (c : LLMCache) (now : Int) (e : String) :
    (∃ m, SummarizeMany oracle corrs = Except.ok m ∧
      ∀ svc group, (svc, group) ∈ groupByService corrs →
        oracle ({ Correlations := group }) = Except.error e →
          (svc, unknownFallbackSummary) ∈ m) ∧
    (corrs ≠ [] → lookupA (hashData corrs) c.cache = none →
      f corrs = Except.error e →
        GetOrSummarize hashData f c now corrs
          = (Except.error ("LLM call failed: " ++ e), c, true)) := by
  constructor
  · refine ⟨_, rfl, ?_⟩
    intro svc group hmem herr
    refine List.mem_map.mpr ⟨(svc, group), hmem, ?_⟩
    simp [herr]
  · intro hne hmiss herr
    unfold GetOrSummarize getOrSummarizeCall
    simp [hne, hmiss, herr]

/-- Witness for the amended C8 theorem at concrete inputs: a failing oracle
over one correlation, and a whole-call error propagated without storing. -/
theorem c8_oracle_failure_amended_witness :
    (∃ m, SummarizeMany failingOracle [corrSample] = Except.ok m ∧
      ∀ svc group, (svc, group) ∈ groupByService [corrSample] →
        failingOracle ({ Correlations := group }) = Except.error ("boom") →
          (svc, unknownFallbackSummary) ∈ m) ∧
    GetOrSummarize constHash (fun _ => Except.error ("boom"))
        (NewLLMCache 900) 0 [corrSample]
      = (Except.error ("LLM call failed: boom"), NewLLMCache 900, true) :=
  ⟨(c8_oracle_failure_amended failingOracle [corrSample] constHash
      (fun _ => Except.error ("boom")) (NewLLMCache 900) 0 ("boom")).1,
   (c8_oracle_failure_amended failingOracle [corrSample] constHash
      (fun _ => Except.error ("boom")) (NewLLMCache 900) 0 ("boom")).2
     (by decide) rfl rfl⟩

/- ### pkg/prometheus (unnamed/part_012): FetchAlerts, the two-argument
variant used by `cmd/vigilant/main.go` -/

/-- A raw alert row of the metrics backend's response: its label set, state,
and activation time. -/
structure RawAlert where
  Labels : List (String × String)
  State : String
  StartsAt : Int
deriving Repr, DecidableEq

/-- `getLabel`: a label's value, or `""` when absent. -/
def getLabel (labels : List (String × String)) (key : String) : String :=
  match lookupA key labels with
  | some v => v
  | none => ""

/-- `extractServiceFromLabels` (two-argument FetchAlerts file): if the
alertname is itself a configured service name, use it; otherwise `"unknown"`.
`validServices` is the Go `map[string]bool` embedded as its true-key list. -/
def extractServiceFromLabels (labels : List (String × String))
    (validServices : List String) : String :=
  let alertname := getLabel labels ("alertname")
  if alertname ∈ validServices then alertname else "unknown"

/-- `FetchAlerts(promURL, validServices)` after the HTTP and JSON layers:
keep firing rows, build the `Alert`, and keep it only when `validServices`
is empty (diagnostic mode) or contains the alert's `Name`. -/
def FetchAlerts (validServices : List String) (raws : List RawAlert) : List Alert :=
  raws.foldl
    (fun alerts a =>
      if a.State = "firing" then
        let alert : Alert :=
          { Name := getLabel a.Labels ("alertname")
            Instance := getLabel a.Labels ("instance")
            Severity := getLabel a.Labels ("severity")
            Service := extractServiceFromLabels a.Labels validServices
            StartsAt := a.StartsAt }
        if validServices = [] ∨ alert.Name ∈ validServices then alerts ++ [alert]
        else alerts
      else alerts)
    []

/- ### pkg/config/services.go: alert-pattern mapping -/

/-- AlertMatching: how alerts are matched to a service profile. -/
structure AlertMatching where
  AlertPattern : String
  SeverityLevels : List String
deriving Repr, DecidableEq

/-- ServiceProfile, restricted to the alert-matching portion that
`CreateAlertToServiceMapping` reads (the further configuration fields of the
Go struct play no role in the claims settled here). -/
structure ServiceProfile where
  AlertMatching : AlertMatching
deriving Repr, DecidableEq

/-- `CreateAlertToServiceMapping`: maps each profile's alert pattern (the
profile name when the pattern is empty) to the profile's service name. -/
def CreateAlertToServiceMapping (profiles : List (String × ServiceProfile)) :
    List (String × String) :=
  profiles.foldl
    (fun mapping kv =>
      let alertPattern :=
        if kv.2.AlertMatching.AlertPattern = "" then kv.1
        else kv.2.AlertMatching.AlertPattern
      upsertA alertPattern kv.1 mapping)
    []

/-- A profile named `PaymentService` whose alert pattern differs from its
name, as in the repository's own configuration guide. -/
def paymentProfile : ServiceProfile :=
  { AlertMatching := { AlertPattern := "PaymentServiceDown"
                       SeverityLevels := ["warning", "critical"] } }

/-- A firing raw alert named after the profile's alert pattern. -/
def rawPaymentAlert : RawAlert :=
  { Labels := [(("alertname"), ("PaymentServiceDown")),
               (("instance"), ("10.0.0.9:443")),
               (("severity"), ("critical"))]
    State := "firing", StartsAt := 0 }

/-- Claim C4 describes intended behaviour the code does not implement: the
configuration layer does expose the alert-pattern-to-service mapping
(`PaymentServiceDown ↦ PaymentService`), but `FetchAlerts` never consults
it — it filters on `validServices[alert.Name]` directly, so a firing alert
named after a profile's alert pattern (differing from the profile name) is
discarded, and its extracted service is `"unknown"` rather than the
profile's name. -/
theorem c4_alert_pattern_not_consulted :
    CreateAlertToServiceMapping [(("PaymentService"), paymentProfile)]
      = [(("PaymentServiceDown"), ("PaymentService"))] ∧
    FetchAlerts [("PaymentService")] [rawPaymentAlert] = [] ∧
    extractServiceFromLabels rawPaymentAlert.Labels [("PaymentService")] = "unknown" :=
  ⟨rfl, rfl, rfl⟩

/- ### pkg/config/services.go: environment-variable expansion -/

/-- The opening brace character, written via its code point so that brace
text never appears inside a literal. -/
def lbrace : Char := Char.ofNat 123

/-- The closing brace character. -/
def rbrace : Char := Char.ofNat 125

/-- Splits a character list at the first closing brace: the regex fragment
`([^}]+)\}` of `expandEnvironmentVariables` matches up to (and consumes) the
first closing brace.  `none` when no closing brace exists. -/
def breakAtBrace : List Char → Option (List Char × List Char)
  | [] => none
  | c :: rest =>
    if c = rbrace then some ([], rest)
    else
      match breakAtBrace rest with
      | some (a, b) => some (c :: a, b)
      | none => none

/-- First substitution pass of `expandEnvironmentVariables`: the regex
`\$\{([^}]+)\}`, replacing each match by the environment value when that
value is non-empty and keeping the original text otherwise.  `env` is Go's
`os.Getenv` (returns `""` for unset variables).  The `Nat` argument is
recursion fuel, initialized to the list length, which every step exceeds. -/
def expandBracedAux (env : String → String) : Nat → List Char → List Char
  | 0, l => l
  | _ + 1, [] => []
  | fuel + 1, c :: rest =>
    if c = '$' then
      match rest with
      | c2 :: rest2 =>
        if c2 = lbrace then
          match breakAtBrace rest2 with
          | some (content, rest3) =>
            if content ≠ [] then
              let v := env (String.mk content)
              (if v ≠ "" then v.data else '$' :: lbrace :: (content ++ [rbrace]))
                ++ expandBracedAux env fuel rest3
            else '$' :: expandBracedAux env fuel rest
          | none => '$' :: expandBracedAux env fuel rest
        else '$' :: expandBracedAux env fuel rest
      | [] => ['$']
    else c :: expandBracedAux env fuel rest

/-- Leading character class `[A-Za-z_]` of the bare-`$VAR` regex. -/
def isIdentStartChar (c : Char) : Bool :=
  decide ('A' ≤ c ∧ c ≤ 'Z') || decide ('a' ≤ c ∧ c ≤ 'z') || c = '_'

/-- Continuation class `[A-Za-z0-9_]` of the bare-`$VAR` regex. -/
def isIdentChar (c : Char) : Bool :=
  isIdentStartChar c || decide ('0' ≤ c ∧ c ≤ '9')

/-- Second substitution pass of `expandEnvironmentVariables`: the regex
`\$([A-Za-z_][A-Za-z0-9_]*)`, same replacement policy as the first pass. -/
def expandBareAux (env : String → String) : Nat → List Char → List Char
  | 0, l => l
  | _ + 1, [] => []
  | fuel + 1, c :: rest =>
    if c = '$' then
      match rest with
      | c2 :: rest2 =>
        if isIdentStartChar c2 then
          let ident := (c2 :: rest2).takeWhile isIdentChar
          let rest' := (c2 :: rest2).dropWhile isIdentChar
          let v := env (String.mk ident)
          (if v ≠ "" then v.data else '$' :: ident) ++ expandBareAux env fuel rest'
        else '$' :: expandBareAux env fuel (c2 :: rest2)
      | [] => ['$']
    else c :: expandBareAux env fuel rest

/-- `expandEnvironmentVariables`: the braced pass followed by the bare pass
over its output, as in `services.go` lines 176-198. -/
def expandEnvironmentVariables (env : String → String) (content : String) : String :=
  let afterBraced := expandBracedAux env content.data.length content.data
  String.mk (expandBareAux env afterBraced.length afterBraced)

/-- An environment in which `FOO` is set to `x` and everything else unset. -/
def sampleEnv : String → String := fun n => if n = "FOO" then "x" else ""

/-- Claim C5 describes default syntax the code does not implement: the
braced regex captures `FOO:-bar` as the variable name, `os.Getenv` finds no
such variable, and the placeholder is left literally — it yields neither the
value of `FOO` (first conjunct, with `FOO` set to `x`) nor the default `bar`
(fourth conjunct, with `FOO` unset).  Plain `$\x7bFOO\x7d` and the untouched
`$\x7bUNSET\x7d` behave as the claim says (second and third conjuncts). -/
theorem c5_env_default_not_expanded :
    expandEnvironmentVariables sampleEnv ("$\x7bFOO:-bar\x7d") = "$\x7bFOO:-bar\x7d" ∧
    expandEnvironmentVariables sampleEnv ("$\x7bFOO\x7d") = "x" ∧
    expandEnvironmentVariables sampleEnv ("$\x7bUNSET\x7d") = "$\x7bUNSET\x7d" ∧
    expandEnvironmentVariables (fun _ => "") ("$\x7bFOO:-bar\x7d") = "$\x7bFOO:-bar\x7d" :=
  ⟨rfl, rfl, rfl, rfl⟩

/- ### pkg/prometheus (unnamed/part_011): metric evaluation -/

/-- Replacement of one occurrence list of `pattern` by `repl`, left to right
and non-overlapping; fuel-driven structural recursion. -/
def replaceSub (pattern repl : List Char) : Nat → List Char → List Char
  | 0, l => l
  | _ + 1, [] => []
  | fuel + 1, c :: rest =>
    if pattern ≠ [] ∧ pattern.isPrefixOf (c :: rest) then
      repl ++ replaceSub pattern repl fuel ((c :: rest).drop pattern.length)
    else c :: replaceSub pattern repl fuel rest

/-- `RenderQuery`: substitutes template variables such as `{{.Service}}`
with their values; profiles only ever use this simple placeholder form of
`text/template`. -/
def RenderQuery (tpl : String) (vars : List (String × String)) : String :=
  vars.foldl
    (fun s kv =>
      String.mk (replaceSub (("\x7b\x7b." ++ kv.1 ++ "\x7d\x7d").data) kv.2.data
        s.data.length s.data))
    tpl

/-- The operator switch of `EvaluateMetricChecks` (part_011 lines 67-73):
only `>` and `<` can set `triggered`; every other operator string leaves the
check not triggered. -/
def evalOperator (op : String) (val threshold : ℚ) : Bool :=
  if op = ">" then decide (val > threshold)
  else if op = "<" then decide (val < threshold)
  else false

/-- `EvaluateMetricChecks`, with the HTTP+JSON backend abstracted as
`query : rendered query ↦ first-result scalar` (`none` for a failed request,
undecodable body, or empty result — all skipped with `continue`). -/
def EvaluateMetricChecks (query : String → Option ℚ)
    (configs : List ServiceMetricConfig) : List MetricResult :=
  configs.foldl
    (fun allResults cfg =>
      cfg.Checks.foldl
        (fun acc check =>
          match query (RenderQuery check.QueryTpl [(("Service"), cfg.Service)]) with
          | none => acc
          | some val =>
            if evalOperator check.Operator val check.Threshold then
              acc ++ [{ Service := cfg.Service, Check := check, Value := val }]
            else acc)
        allResults)
    []

/-- A check with the documented operator `>=` at threshold 5. -/
def checkGe : MetricCheck :=
  { Name := "LatencyHigh", QueryTpl := "up", Operator := ">=", Threshold := 5, Weight := 1 }

/-- A check with the implemented operator `>` at threshold 4. -/
def checkGt : MetricCheck :=
  { Name := "LatencyHigh", QueryTpl := "up", Operator := ">", Threshold := 4, Weight := 1 }

/-- Claim C6 lists six supported operators, but the code's switch handles
only `>` and `<`: with the backend returning 5, a `>=`-check at threshold 5
emits no trigger even though `5 >= 5` holds, while a `>`-check at threshold
4 triggers as expected. -/
theorem c6_operator_subset :
    EvaluateMetricChecks (fun _ => some 5) [{ Service := "svc", Checks := [checkGe] }]
      = [] ∧
    evalOperator (">=") 5 5 = false ∧
    (5 : ℚ) ≥ 5 ∧
    EvaluateMetricChecks (fun _ => some 5) [{ Service := "svc", Checks := [checkGt] }]
      = [{ Service := "svc", Check := checkGt, Value := 5 }] :=
  ⟨rfl, rfl, le_refl _, rfl⟩

end Vigilant
